import Mathlib

/-!
Shallow embedding of the subscription reconciliation and webhook handling
logic of the Elevate music backend (subscriptionController, invoiceController,
and the countdown view), together with theorems settling the frozen claims
about it.

Conventions of the embedding:
* machine times are integers: local timestamps (JS Date values) are in
  milliseconds, Stripe period ends are in epoch seconds (the code multiplies
  them by 1000 before storing);
* JS truthiness tests on numbers (zero is falsy) and strings (empty string
  is falsy) are modelled explicitly by cpeTruthy and strTruthy;
* the billing provider is an environment function from subscription id to
  an optional provider record; a missing record models a throwing
  stripe.subscriptions.retrieve call, and a thrown handler error is an
  Except.error result (the endpoint then never reaches its acknowledgment);
* the data store is the list of user rows plus the list of invoice rows;
  Sequelize findOne / findByPk are first-match lookups and save is a
  whole-record replace keyed by the row id.
-/

/-- Subscription status strings that occur in the code. -/
inductive SubStatus
  | active
  | trialing
  | incomplete
  | past_due
  | canceled
  | expired
  | unpaid
deriving DecidableEq, Repr

/-- Billing interval of a plan, items.data[0].plan.interval. -/
inductive PlanInterval
  | month
  | year
deriving DecidableEq, Repr

/-- The JSON subscription blob embedded on the user row.  Every field is
optional because webhook handlers build it by object spread and may leave
fields unset. -/
structure LocalSub where
  id : Option String := none
  status : Option SubStatus := none
  currentPeriodEnd : Option Int := none
  interval : Option PlanInterval := none
  cancelAtPeriodEnd : Option Bool := none
  paymentDate : Option Int := none
deriving DecidableEq, Repr

/-- A user row; only the fields the subscription logic touches. -/
structure UserRec where
  id : Nat
  email : String := ""
  name : String := ""
  stripeCustomerId : Option String := none
  subscription : Option LocalSub := none
deriving DecidableEq, Repr

/-- An invoice row, as created by generateInvoice. -/
structure InvoiceRec where
  invoiceId : String
  userId : Nat
  subscriptionId : String
  stripeInvoiceId : String
  amount : ℚ
  currency : String
  emailSent : Bool
deriving DecidableEq, Repr

/-- The persistent store: user rows and invoice rows. -/
structure Store where
  users : List UserRec
  invoices : List InvoiceRec
deriving DecidableEq, Repr

/-- A provider-side subscription record as returned by
stripe.subscriptions.retrieve. -/
structure StripeSub where
  id : String
  status : SubStatus
  customer : String
  current_period_end : Option Int := none
  cancel_at_period_end : Bool := false
  interval : Option PlanInterval := none
  priceId : Option String := none
deriving DecidableEq, Repr

/-- The charge object of a charge.succeeded event. -/
structure ChargeData where
  id : String
  metadata_subscription_id : Option String := none
  amount : Int := 0
  currency : String := "usd"
  invoice : Option String := none
deriving DecidableEq, Repr

/-- The payment intent object of a payment_intent event. -/
structure PaymentIntentData where
  id : String
  metadata_subscription_id : Option String := none
  amount : Int := 0
  currency : String := "usd"
  invoice : Option String := none
deriving DecidableEq, Repr

/-- The invoice object of an invoice.payment_succeeded or
invoice.payment_failed event. -/
structure InvoiceEventData where
  id : String
  customer : String
  subscription : String
  period_end : Int := 0
  amount_paid : Int := 0
  currency : String := "usd"
deriving DecidableEq, Repr

/-- The typed event envelope produced by stripe.webhooks.constructEvent,
one constructor per case of the dispatch switch plus a constructor for
every unrecognized type tag. -/
inductive StripeEvent
  | payment_intent_succeeded (p : PaymentIntentData)
  | charge_succeeded (c : ChargeData)
  | payment_intent_payment_failed (p : PaymentIntentData)
  | subscription_created (s : StripeSub)
  | subscription_updated (s : StripeSub)
  | subscription_deleted (s : StripeSub)
  | invoice_payment_succeeded (i : InvoiceEventData)
  | invoice_payment_failed (i : InvoiceEventData)
  | unrecognized (tag : String)
deriving DecidableEq, Repr

/-- A thrown error inside a handler; the only modelled source is a failing
provider lookup. -/
inductive StripeError
  | retrieveFailed
deriving DecidableEq, Repr

/-- The ambient environment of a request: whether the Stripe client is
configured, the clock (milliseconds), the provider lookup, and the fresh
invoice identifier the next generateInvoice call will draw. -/
structure Env where
  stripeConfigured : Bool := true
  now : Int := 0
  providerSubs : String → Option StripeSub := fun _ => none
  freshInvoiceId : String := "INV-0"

/-- An HTTP response of the webhook endpoint, reduced to its status code
and whether the body is the received acknowledgment. -/
structure WebhookResult where
  statusCode : Nat
  acknowledged : Bool
deriving DecidableEq, Repr

/-- JS truthiness of an optional number: present and nonzero. -/
def cpeTruthy : Option Int → Bool
  | some t => t != 0
  | none => false

/-- JS truthiness of an optional string: present and nonempty. -/
def strTruthy : Option String → Bool
  | some s => s != ""
  | none => false

/-- One day in milliseconds. -/
def dayMs : Int := 86400000

/-- Fallback validity in days for an interval, 365 for year and 30
otherwise. -/
def validityDaysOf (i : PlanInterval) : Int :=
  if i = PlanInterval.year then 365 else 30

/-- User.findOne where stripeCustomerId equals the given customer. -/
def findUserByCustomer (st : Store) (c : String) : Option UserRec :=
  st.users.find? (fun u => decide (u.stripeCustomerId = some c))

/-- User.findByPk. -/
def findUserById (st : Store) (uid : Nat) : Option UserRec :=
  st.users.find? (fun u => decide (u.id = uid))

/-- user.save: replace the row with the same primary key. -/
def saveUser (st : Store) (u : UserRec) : Store :=
  { st with users := st.users.map (fun x => if x.id = u.id then u else x) }

/-- The argument object handed to handleSuccessfulPayment at each call
site. -/
structure PaymentData where
  id : String
  subscriptionId : String
  amount : ℚ
  currency : String
  stripeInvoiceId : String
deriving DecidableEq, Repr

/-- generateInvoice: synchronously create one invoice row for a successful
payment occurrence; the identifier is freshly generated, emailSent starts
false. -/
def generateInvoice (e : Env) (d : PaymentData) (user : UserRec) (st : Store) : Store :=
  { st with
      invoices := st.invoices ++
        [{ invoiceId := e.freshInvoiceId
           userId := user.id
           subscriptionId := d.id
           stripeInvoiceId := d.stripeInvoiceId
           amount := d.amount
           currency := d.currency
           emailSent := false }] }

/-- handleSuccessfulPayment: create the invoice; the email dispatch is
asynchronous and never feeds back into the stored state or the response,
so it is not part of the state transition. -/
def handleSuccessfulPayment (e : Env) (d : PaymentData) (user : UserRec) (st : Store) : Store :=
  generateInvoice e d user st

/-- The period end a webhook handler stores: the provider value (seconds,
scaled to milliseconds) when truthy, else now plus the interval-based
fallback. -/
def periodEndOrFallback (e : Env) (cpe : Option Int) (i : PlanInterval) : Int :=
  if cpeTruthy cpe then (cpe.getD 0) * 1000 else e.now + validityDaysOf i * dayMs

/-- The read-modify-write a successful-payment webhook handler applies to
the user row: overwrite status, period end, payment date and interval on
the spread of the existing blob. -/
def paidUpdateUser (e : Env) (newStatus : SubStatus) (cpe : Int)
    (interval : PlanInterval) (u : UserRec) : UserRec :=
  { u with
      subscription := some { (u.subscription.getD {}) with
        status := some newStatus
        currentPeriodEnd := some cpe
        paymentDate := some e.now
        interval := some interval } }

/-- The update the invoice.payment_succeeded handler applies: status
active, the invoice period end scaled to milliseconds, a fresh payment
date; the interval is left as it was. -/
def invoicePaidUser (e : Env) (i : InvoiceEventData) (u : UserRec) : UserRec :=
  { u with
      subscription := some { (u.subscription.getD {}) with
        status := some SubStatus.active
        currentPeriodEnd := some (i.period_end * 1000)
        paymentDate := some e.now } }

/-- The event dispatch switch of handleWebhook, acting on the store.  A
.error result models an exception thrown inside a handler (a failing
stripe.subscriptions.retrieve), which the endpoint does not catch. -/
def dispatchEvent (e : Env) (ev : StripeEvent) (st : Store) : Except StripeError Store :=
  match ev with
  | .payment_intent_succeeded p =>
    match p.metadata_subscription_id with
    | none => .ok st
    | some sid =>
      match e.providerSubs sid with
      | none => .error .retrieveFailed
      | some s =>
        if s.status = SubStatus.active ∨ s.status = SubStatus.trialing then
          let interval := s.interval.getD PlanInterval.month
          let cpe := periodEndOrFallback e s.current_period_end interval
          match findUserByCustomer st s.customer with
          | none => .ok st
          | some user =>
            let user' := paidUpdateUser e s.status cpe interval user
            .ok (handleSuccessfulPayment e
              { id := sid, subscriptionId := sid, amount := (p.amount : ℚ) / 100
                currency := p.currency, stripeInvoiceId := p.invoice.getD p.id }
              user' (saveUser st user'))
        else .ok st
  | .charge_succeeded c =>
    match c.metadata_subscription_id with
    | none => .ok st
    | some sid =>
      match e.providerSubs sid with
      | none => .error .retrieveFailed
      | some s =>
        let interval := s.interval.getD PlanInterval.month
        let cpe := periodEndOrFallback e s.current_period_end interval
        match findUserByCustomer st s.customer with
        | none => .ok st
        | some user =>
          if s.status = SubStatus.active ∨ s.status = SubStatus.trialing then
            let user' := paidUpdateUser e s.status cpe interval user
            .ok (handleSuccessfulPayment e
              { id := sid, subscriptionId := sid, amount := (c.amount : ℚ) / 100
                currency := c.currency, stripeInvoiceId := c.invoice.getD c.id }
              user' (saveUser st user'))
          else if s.status = SubStatus.incomplete then
            let user' := paidUpdateUser e SubStatus.active cpe interval user
            .ok (handleSuccessfulPayment e
              { id := sid, subscriptionId := sid, amount := (c.amount : ℚ) / 100
                currency := c.currency, stripeInvoiceId := c.invoice.getD c.id }
              user' (saveUser st user'))
          else .ok st
  | .payment_intent_payment_failed _ => .ok st
  | .subscription_created s =>
    let cpe := periodEndOrFallback e s.current_period_end (s.interval.getD PlanInterval.month)
    match findUserByCustomer st s.customer with
    | none => .ok st
    | some user =>
      .ok (saveUser st { user with
        subscription := some { (user.subscription.getD {}) with
          status := some s.status
          currentPeriodEnd := some cpe
          paymentDate := some e.now
          interval := some (s.interval.getD PlanInterval.month) } })
  | .subscription_updated s =>
    let cpe := periodEndOrFallback e s.current_period_end (s.interval.getD PlanInterval.month)
    match findUserByCustomer st s.customer with
    | none => .ok st
    | some user =>
      .ok (saveUser st { user with
        subscription := some { (user.subscription.getD {}) with
          status := some s.status
          currentPeriodEnd := some cpe
          paymentDate := some e.now
          interval := some (s.interval.getD PlanInterval.month)
          cancelAtPeriodEnd := some s.cancel_at_period_end } })
  | .subscription_deleted s =>
    match findUserByCustomer st s.customer with
    | none => .ok st
    | some user =>
      .ok (saveUser st { user with
        subscription := some { (user.subscription.getD {}) with
          status := some SubStatus.canceled
          currentPeriodEnd := none } })
  | .invoice_payment_succeeded i =>
    match findUserByCustomer st i.customer with
    | none => .ok st
    | some user =>
      let user' := invoicePaidUser e i user
      .ok (handleSuccessfulPayment e
        { id := i.subscription, subscriptionId := i.subscription
          amount := (i.amount_paid : ℚ) / 100
          currency := i.currency, stripeInvoiceId := i.id }
        user' (saveUser st user'))
  | .invoice_payment_failed i =>
    match findUserByCustomer st i.customer with
    | none => .ok st
    | some user =>
      .ok (saveUser st { user with
        subscription := some { (user.subscription.getD {}) with
          status := some SubStatus.past_due } })
  | .unrecognized _ => .ok st

/-- The webhook endpoint: reject when Stripe is unconfigured (500) or the
signature fails verification (400, nothing touched); otherwise dispatch the
event and acknowledge with 200.  An exception escaping a handler aborts the
request before the acknowledgment. -/
def handleWebhook (e : Env) (sigValid : Bool) (ev : StripeEvent) (st : Store) :
    Except StripeError (WebhookResult × Store) :=
  if e.stripeConfigured = false then
    .ok ({ statusCode := 500, acknowledged := false }, st)
  else if sigValid = false then
    .ok ({ statusCode := 400, acknowledged := false }, st)
  else
    match dispatchEvent e ev st with
    | .error err => .error err
    | .ok st' => .ok ({ statusCode := 200, acknowledged := true }, st')

/-- The response body of a successful getSubscriptionStatus call. -/
structure StatusResp where
  id : String
  status : SubStatus
  currentPeriodEnd : Option Int
  cancelAtPeriodEnd : Bool
  interval : PlanInterval
  isActive : Bool
  paymentDate : Option Int
  willCancelAtPeriodEnd : Bool
deriving DecidableEq, Repr

/-- The possible outcomes of the status endpoint: 500 when Stripe is not
configured, 401 without a caller identity, the distinguished null
subscription body when there is no usable local record, 500 when the
provider lookup throws (caught by the surrounding try), or the merged
response. -/
inductive StatusOutcome
  | notConfigured
  | notAuthenticated
  | noSubscription
  | fetchError
  | ok (r : StatusResp)
deriving DecidableEq, Repr

/-- True when a status counts as active, status being active or
trialing. -/
def statusIsActiveish (x : SubStatus) : Bool :=
  match x with
  | SubStatus.active => true
  | SubStatus.trialing => true
  | _ => false

/-- The tie-break and expiry-override core of getSubscriptionStatus: use
the local status when it is active, else the provider status; then, when
the result counts as active but the provider period end is truthy and in
the past, force expired and inactive. -/
def mergeStatus (l : LocalSub) (s : StripeSub) (nowMs : Int) : SubStatus × Bool :=
  let finalStatus0 := if l.status = some SubStatus.active then SubStatus.active else s.status
  let isActive0 := statusIsActiveish finalStatus0
  if isActive0 = true ∧ cpeTruthy s.current_period_end = true ∧
      (s.current_period_end.getD 0) * 1000 < nowMs then
    (SubStatus.expired, false)
  else
    (finalStatus0, isActive0)

/-- GET /subscriptions/status.  The userId argument is the authenticated
caller, none when authentication failed. -/
def getSubscriptionStatus (e : Env) (userId : Option Nat) (st : Store) : StatusOutcome :=
  if e.stripeConfigured = false then StatusOutcome.notConfigured
  else
    match userId with
    | none => StatusOutcome.notAuthenticated
    | some uid =>
      match findUserById st uid with
      | none => StatusOutcome.noSubscription
      | some user =>
        match user.subscription with
        | none => StatusOutcome.noSubscription
        | some lsub =>
          match lsub.id with
          | none => StatusOutcome.noSubscription
          | some sid =>
            if sid = "" then StatusOutcome.noSubscription
            else
              match e.providerSubs sid with
              | none => StatusOutcome.fetchError
              | some s =>
                let merged := mergeStatus lsub s e.now
                StatusOutcome.ok
                  { id := s.id
                    status := merged.1
                    currentPeriodEnd :=
                      match lsub.currentPeriodEnd with
                      | some ms => some (Int.ediv ms 1000)
                      | none => s.current_period_end
                    cancelAtPeriodEnd := s.cancel_at_period_end
                    interval := lsub.interval.getD (s.interval.getD PlanInterval.month)
                    isActive := merged.2
                    paymentDate := lsub.paymentDate
                    willCancelAtPeriodEnd := s.cancel_at_period_end }

/-- Four-tier validity classification of the countdown view. -/
inductive VStatus
  | good
  | warning
  | critical
  | expired
  | unknown
deriving DecidableEq, Repr

/-- Ceiling division of integers for a positive divisor, as Math.ceil of
the exact quotient. -/
def ceilDiv (a b : Int) : Int :=
  -(Int.ediv (-a) b)

/-- Remaining days of the countdown view: the ceiling of the difference in
days, clamped to be nonnegative. -/
def remainingDaysOf (nowMs expiryMs : Int) : Int :=
  max 0 (ceilDiv (expiryMs - nowMs) dayMs)

/-- The validity tier computed from the remaining days. -/
def validityStatusOf (rd : Int) : VStatus :=
  if rd > 7 then VStatus.good
  else if rd > 3 then VStatus.warning
  else if rd > 0 then VStatus.critical
  else VStatus.expired

/-- The response body of a successful getSubscriptionDetails call,
countdown fields included. -/
structure DetailsResp where
  id : String
  status : SubStatus
  currentPeriodEnd : Option Int
  cancelAtPeriodEnd : Bool
  interval : PlanInterval
  isActive : Bool
  paymentDate : Option Int
  expiryDate : Int
  remainingDays : Int
  validityDays : Int
  validityStatus : VStatus
deriving DecidableEq, Repr

/-- The possible outcomes of the details endpoint. -/
inductive DetailsOutcome
  | notConfigured
  | notAuthenticated
  | noSubscription
  | fetchError
  | ok (d : DetailsResp)
deriving DecidableEq, Repr

/-- The countdown view assembled from the provider record and the local
blob; the expiry date is the provider period end in milliseconds (a null
period end behaves as epoch zero, JS null times 1000). -/
def detailsFor (e : Env) (s : StripeSub) (lsub : LocalSub) : DetailsResp :=
  let interval := s.interval.getD (lsub.interval.getD PlanInterval.month)
  let expiryMs := (s.current_period_end.getD 0) * 1000
  let rd := remainingDaysOf e.now expiryMs
  { id := s.id
    status := s.status
    currentPeriodEnd := s.current_period_end
    cancelAtPeriodEnd := s.cancel_at_period_end
    interval := interval
    isActive := statusIsActiveish s.status
    paymentDate := lsub.paymentDate
    expiryDate := expiryMs
    remainingDays := rd
    validityDays := validityDaysOf interval
    validityStatus := validityStatusOf rd }

/-- GET /subscriptions/details. -/
def getSubscriptionDetails (e : Env) (userId : Option Nat) (st : Store) : DetailsOutcome :=
  if e.stripeConfigured = false then DetailsOutcome.notConfigured
  else
    match userId with
    | none => DetailsOutcome.notAuthenticated
    | some uid =>
      match findUserById st uid with
      | none => DetailsOutcome.noSubscription
      | some user =>
        match user.subscription with
        | none => DetailsOutcome.noSubscription
        | some lsub =>
          match lsub.id with
          | none => DetailsOutcome.noSubscription
          | some sid =>
            if sid = "" then DetailsOutcome.noSubscription
            else
              match e.providerSubs sid with
              | none => DetailsOutcome.fetchError
              | some s => DetailsOutcome.ok (detailsFor e s lsub)

/-- The local subscription blob forceActivateSubscription writes: status
forced to active, cancellation flag cleared, interval and period end taken
from the provider (with interval fallback) and the payment date stamped
with the call time. -/
def forceLocal (e : Env) (s : StripeSub) (lsub : LocalSub) : LocalSub :=
  let interval := s.interval.getD PlanInterval.month
  { lsub with
      status := some SubStatus.active
      interval := some interval
      cancelAtPeriodEnd := some false
      currentPeriodEnd := some (periodEndOrFallback e s.current_period_end interval)
      paymentDate := some e.now }

/-- The possible outcomes of the force-activate endpoint. -/
inductive ForceOutcome
  | notConfigured
  | notAuthenticated
  | noSubscription
  | fetchError
  | ok (id : String) (stripeStatus : SubStatus)
deriving DecidableEq, Repr

/-- POST /subscriptions/force-activate: unconditionally set the local
status to active and clear cancelAtPeriodEnd; the attempt to clear the
provider-side flag is best effort and does not touch the local store. -/
def forceActivateSubscription (e : Env) (userId : Option Nat) (st : Store) :
    ForceOutcome × Store :=
  if e.stripeConfigured = false then (ForceOutcome.notConfigured, st)
  else
    match userId with
    | none => (ForceOutcome.notAuthenticated, st)
    | some uid =>
      match findUserById st uid with
      | none => (ForceOutcome.noSubscription, st)
      | some user =>
        match user.subscription with
        | none => (ForceOutcome.noSubscription, st)
        | some lsub =>
          match lsub.id with
          | none => (ForceOutcome.noSubscription, st)
          | some sid =>
            if sid = "" then (ForceOutcome.noSubscription, st)
            else
              match e.providerSubs sid with
              | none => (ForceOutcome.fetchError, st)
              | some s =>
                let user' := { user with subscription := some (forceLocal e s lsub) }
                (ForceOutcome.ok s.id s.status, saveUser st user')

/-- The store after a webhook delivery; when the handler throws, the store
of interest is whatever the handler had already written, which for the
events modelled here is the untouched input store. -/
def webhookStore (e : Env) (sigValid : Bool) (ev : StripeEvent) (st : Store) : Store :=
  match handleWebhook e sigValid ev st with
  | Except.ok (_, st') => st'
  | Except.error _ => st

/-- The HTTP status code of a webhook delivery, none when the handler
threw and no response was produced. -/
def webhookCode (e : Env) (sigValid : Bool) (ev : StripeEvent) (st : Store) : Option Nat :=
  match handleWebhook e sigValid ev st with
  | Except.ok (r, _) => some r.statusCode
  | Except.error _ => none

/-- Whether a webhook delivery produced a 200 response. -/
def responds200 (r : Except StripeError (WebhookResult × Store)) : Bool :=
  match r with
  | Except.ok (res, _) => res.statusCode == 200
  | Except.error _ => false

/-- The local subscription blob of the user row with the given primary
key. -/
def localSubOfUser (st : Store) (uid : Nat) : Option LocalSub :=
  match findUserById st uid with
  | some u => u.subscription
  | none => none

/-- The local status of the user row matching a provider customer id. -/
def localStatusByCustomer (st : Store) (c : String) : Option SubStatus :=
  match findUserByCustomer st c with
  | some u =>
    match u.subscription with
    | some l => l.status
    | none => none
  | none => none

/-- The locally cached period end of the user row matching a provider
customer id. -/
def localCpeByCustomer (st : Store) (c : String) : Option Int :=
  match findUserByCustomer st c with
  | some u =>
    match u.subscription with
    | some l => l.currentPeriodEnd
    | none => none
  | none => none

/-- The reported status of a status outcome, none unless the merged
response was produced. -/
def outcomeStatus : StatusOutcome → Option SubStatus
  | StatusOutcome.ok r => some r.status
  | _ => none

/-- The reported isActive flag of a status outcome. -/
def outcomeIsActive : StatusOutcome → Option Bool
  | StatusOutcome.ok r => some r.isActive
  | _ => none

/-- The reported cancelAtPeriodEnd flag of a status outcome. -/
def outcomeCancelFlag : StatusOutcome → Option Bool
  | StatusOutcome.ok r => some r.cancelAtPeriodEnd
  | _ => none

/-- The reported willCancelAtPeriodEnd flag of a status outcome. -/
def outcomeWillCancel : StatusOutcome → Option Bool
  | StatusOutcome.ok r => some r.willCancelAtPeriodEnd
  | _ => none

/-- The reported period end of a status outcome. -/
def outcomeCpe : StatusOutcome → Option (Option Int)
  | StatusOutcome.ok r => some r.currentPeriodEnd
  | _ => none

/-- The reported interval of a status outcome. -/
def outcomePlan : StatusOutcome → Option PlanInterval
  | StatusOutcome.ok r => some r.interval
  | _ => none

/-- The remaining days of a details outcome. -/
def detailsRemaining : DetailsOutcome → Option Int
  | DetailsOutcome.ok d => some d.remainingDays
  | _ => none

/-- The validity tier of a details outcome. -/
def detailsValidity : DetailsOutcome → Option VStatus
  | DetailsOutcome.ok d => some d.validityStatus
  | _ => none

/-- The expiry date of a details outcome. -/
def detailsExpiry : DetailsOutcome → Option Int
  | DetailsOutcome.ok d => some d.expiryDate
  | _ => none

/-- Replacing, in a whole-record save, the first row a predicate finds by
an update with the same key and the same predicate value makes the update
the row the predicate finds. -/
theorem find_replace_aux (l : List UserRec) (p : UserRec → Bool) (u u' : UserRec)
    (h : l.find? p = some u) (hid : u'.id = u.id) (hp : p u' = p u) :
    (l.map (fun x => if x.id = u'.id then u' else x)).find? p = some u' := by
  induction l with
  | nil => simp at h
  | cons a t ih =>
    have hpu : p u = true := List.find?_some h
    by_cases hpa : p a = true
    · rw [List.find?_cons_of_pos _ hpa] at h
      have hau : a = u := by injection h
      subst hau
      have haid : a.id = u'.id := (hid.symm : a.id = u'.id)
      simp only [List.map_cons, if_pos haid]
      exact List.find?_cons_of_pos _ (hp.trans hpu)
    · rw [List.find?_cons_of_neg _ hpa] at h
      simp only [List.map_cons]
      by_cases haid : a.id = u'.id
      · rw [if_pos haid]
        exact List.find?_cons_of_pos _ (hp.trans hpu)
      · rw [if_neg haid, List.find?_cons_of_neg _ hpa]
        exact ih h

/-- Saving an update of the row findUserByCustomer found (same key, same
customer id) makes the update what findUserByCustomer finds. -/
theorem findUserByCustomer_saveUser (st : Store) (c : String) (u u' : UserRec)
    (h : findUserByCustomer st c = some u) (hid : u'.id = u.id)
    (hc : u'.stripeCustomerId = u.stripeCustomerId) :
    findUserByCustomer (saveUser st u') c = some u' := by
  unfold findUserByCustomer saveUser at *
  exact find_replace_aux st.users _ u u' h hid (by rw [hc])

/-- Saving an update of the row findUserById found (same key) makes the
update what findUserById finds. -/
theorem findUserById_saveUser (st : Store) (n : Nat) (u u' : UserRec)
    (h : findUserById st n = some u) (hid : u'.id = u.id) :
    findUserById (saveUser st u') n = some u' := by
  unfold findUserById saveUser at *
  exact find_replace_aux st.users _ u u' h hid (by rw [hid])

/-- Creating an invoice row does not change the user rows. -/
theorem users_generateInvoice (e : Env) (d : PaymentData) (u : UserRec) (st : Store) :
    (generateInvoice e d u st).users = st.users := rfl

/-- Creating an invoice row appends exactly one row. -/
theorem invoices_generateInvoice (e : Env) (d : PaymentData) (u : UserRec) (st : Store) :
    (generateInvoice e d u st).invoices.length = st.invoices.length + 1 := by
  simp [generateInvoice]

/-- Reduction of getSubscriptionStatus to its merged response once the
local record, its id and the provider lookup are fixed. -/
theorem getStatus_ok (e : Env) (st : Store) (uid : Nat) (u : UserRec)
    (l : LocalSub) (sid : String) (s : StripeSub)
    (hconf : e.stripeConfigured = true)
    (hu : findUserById st uid = some u) (hl : u.subscription = some l)
    (hid : l.id = some sid) (hne : sid ≠ "") (hs : e.providerSubs sid = some s) :
    getSubscriptionStatus e (some uid) st = StatusOutcome.ok
      { id := s.id
        status := (mergeStatus l s e.now).1
        currentPeriodEnd :=
          match l.currentPeriodEnd with
          | some ms => some (Int.ediv ms 1000)
          | none => s.current_period_end
        cancelAtPeriodEnd := s.cancel_at_period_end
        interval := l.interval.getD (s.interval.getD PlanInterval.month)
        isActive := (mergeStatus l s e.now).2
        paymentDate := l.paymentDate
        willCancelAtPeriodEnd := s.cancel_at_period_end } := by
  simp [getSubscriptionStatus, hconf, hu, hl, hid, hne, hs]

/-- When the provider period end has not passed (or is not truthy), the
expiry override of mergeStatus does not fire. -/
theorem mergeStatus_not_past (l : LocalSub) (s : StripeSub) (nowMs : Int)
    (hnp : cpeTruthy s.current_period_end = true →
      nowMs ≤ (s.current_period_end.getD 0) * 1000) :
    mergeStatus l s nowMs =
      (if l.status = some SubStatus.active then SubStatus.active else s.status,
       statusIsActiveish
         (if l.status = some SubStatus.active then SubStatus.active else s.status)) := by
  unfold mergeStatus
  rw [if_neg]
  rintro ⟨_, h2, h3⟩
  exact absurd h3 (not_lt.mpr (hnp h2))

/-- The empty store. -/
def emptyStore : Store := { users := [], invoices := [] }

/-- Local blob of the primary witness user: locally active, with a cached
period end, a month interval and a locally cached cancellation flag. -/
def xLocal : LocalSub :=
  { id := some "sub1", status := some SubStatus.active,
    currentPeriodEnd := some 9000000, interval := some PlanInterval.month,
    cancelAtPeriodEnd := some true, paymentDate := some 1 }

/-- The primary witness user row. -/
def xUser : UserRec :=
  { id := 1, email := "a@b.c", name := "A",
    stripeCustomerId := some "cus1", subscription := some xLocal }

/-- A store holding just the primary witness user. -/
def xStore : Store := { users := [xUser], invoices := [] }

/-- A provider record whose period end (epoch seconds 10) is already in the
past for a clock at 20000 ms. -/
def xSubPast : StripeSub :=
  { id := "sub1", status := SubStatus.incomplete, customer := "cus1",
    current_period_end := some 10, cancel_at_period_end := false,
    interval := some PlanInterval.year, priceId := none }

/-- Environment whose clock sits after the provider period end of
xSubPast. -/
def xEnvPast : Env :=
  { stripeConfigured := true, now := 20000,
    providerSubs := fun sid => if sid = "sub1" then some xSubPast else none,
    freshInvoiceId := "INV-P" }

/-- A provider record whose period end lies in the future for a clock at
500 ms, reporting incomplete and no cancellation. -/
def xSubFuture : StripeSub :=
  { id := "sub1", status := SubStatus.incomplete, customer := "cus1",
    current_period_end := some 10000, cancel_at_period_end := false,
    interval := some PlanInterval.year, priceId := none }

/-- Environment whose clock sits before the provider period end of
xSubFuture. -/
def xEnvFuture : Env :=
  { stripeConfigured := true, now := 500,
    providerSubs := fun sid => if sid = "sub1" then some xSubFuture else none,
    freshInvoiceId := "INV-F" }

/-- C2: for every subscription whose stored status is active but whose
provider-reported currentPeriodEnd lies in the past at the time of the
call (the expiry override of the reconciler reads the freshly fetched
provider period end), getStatus reports isActive false and status
expired. -/
theorem c2_expired_override (e : Env) (st : Store) (uid : Nat) (u : UserRec)
    (l : LocalSub) (sid : String) (s : StripeSub) (t : Int)
    (hconf : e.stripeConfigured = true)
    (hu : findUserById st uid = some u) (hl : u.subscription = some l)
    (hid : l.id = some sid) (hne : sid ≠ "")
    (hstat : l.status = some SubStatus.active)
    (hs : e.providerSubs sid = some s)
    (hcpe : s.current_period_end = some t) (ht : 0 < t)
    (hpast : t * 1000 < e.now) :
    outcomeStatus (getSubscriptionStatus e (some uid) st) = some SubStatus.expired ∧
    outcomeIsActive (getSubscriptionStatus e (some uid) st) = some false := by
  have hm : mergeStatus l s e.now = (SubStatus.expired, false) := by
    simp [mergeStatus, hstat, statusIsActiveish, cpeTruthy, hcpe, hpast, ne_of_gt ht]
  rw [getStatus_ok e st uid u l sid s hconf hu hl hid hne hs]
  simp [outcomeStatus, outcomeIsActive, hm]

/-- C2 witness: a stored-active subscription with the provider period end
at epoch second 10 and the clock at 20000 ms reports expired and
inactive. -/
theorem c2_witness :
    outcomeStatus (getSubscriptionStatus xEnvPast (some 1) xStore) = some SubStatus.expired ∧
    outcomeIsActive (getSubscriptionStatus xEnvPast (some 1) xStore) = some false :=
  c2_expired_override xEnvPast xStore 1 xUser xLocal "sub1" xSubPast 10 rfl (by decide)
    rfl rfl (by decide) rfl (by decide) rfl (by decide) (by decide)

/-- C3: when the local stored status is active and the period end has not
passed, getStatus resolves the status to active regardless of the provider
status (local wins); when the local status is not active, the resolved
status is the provider status. -/
theorem c3_tie_break (e : Env) (st : Store) (uid : Nat) (u : UserRec)
    (l : LocalSub) (sid : String) (s : StripeSub)
    (hconf : e.stripeConfigured = true)
    (hu : findUserById st uid = some u) (hl : u.subscription = some l)
    (hid : l.id = some sid) (hne : sid ≠ "")
    (hs : e.providerSubs sid = some s)
    (hnp : cpeTruthy s.current_period_end = true →
      e.now ≤ (s.current_period_end.getD 0) * 1000) :
    (l.status = some SubStatus.active →
      outcomeStatus (getSubscriptionStatus e (some uid) st) = some SubStatus.active) ∧
    (¬ l.status = some SubStatus.active →
      outcomeStatus (getSubscriptionStatus e (some uid) st) = some s.status) := by
  rw [getStatus_ok e st uid u l sid s hconf hu hl hid hne hs]
  rw [mergeStatus_not_past l s e.now hnp]
  constructor
  · intro hstat
    simp [outcomeStatus, hstat]
  · intro hstat
    simp [outcomeStatus, hstat]

/-- C3 witness: local status active, provider status incomplete, provider
period end in the future, and the reported status is active. -/
theorem c3_witness :
    outcomeStatus (getSubscriptionStatus xEnvFuture (some 1) xStore) =
      some SubStatus.active :=
  (c3_tie_break xEnvFuture xStore 1 xUser xLocal "sub1" xSubFuture rfl (by decide)
    rfl rfl (by decide) rfl (fun _ => by decide)).1 rfl

/-- A witness user row that exists but has never subscribed. -/
def yUser : UserRec := { id := 2 }

/-- A store holding just the never-subscribed user. -/
def yStore : Store := { users := [yUser], invoices := [] }

/-- C4: when the local record is absent, has no subscription blob, or the
blob lacks a truthy subscription id, getStatus reports the distinguished
null-subscription body, which is distinguishable from every populated
(including inactive) response. -/
theorem c4_status_none (e : Env) (st : Store) (uid : Nat)
    (hconf : e.stripeConfigured = true)
    (habs : findUserById st uid = none
      ∨ (∃ u, findUserById st uid = some u ∧ u.subscription = none)
      ∨ (∃ u l, findUserById st uid = some u ∧ u.subscription = some l ∧
          strTruthy l.id = false)) :
    getSubscriptionStatus e (some uid) st = StatusOutcome.noSubscription ∧
    (∀ r : StatusResp, StatusOutcome.noSubscription ≠ StatusOutcome.ok r) := by
  refine ⟨?_, fun r h => by cases h⟩
  rcases habs with h | ⟨u, hu, hsub⟩ | ⟨u, l, hu, hsub, hid⟩
  · simp [getSubscriptionStatus, hconf, h]
  · simp [getSubscriptionStatus, hconf, hu, hsub]
  · cases hl : l.id with
    | none => simp [getSubscriptionStatus, hconf, hu, hsub, hl]
    | some sid =>
      rw [hl] at hid
      simp only [strTruthy, bne_eq_false_iff_eq] at hid
      simp [getSubscriptionStatus, hconf, hu, hsub, hl, hid]

/-- C4 witness: a user row without a subscription blob gets the
null-subscription outcome. -/
theorem c4_witness :
    getSubscriptionStatus xEnvFuture (some 2) yStore = StatusOutcome.noSubscription :=
  (c4_status_none xEnvFuture yStore 2 rfl
    (Or.inr (Or.inl ⟨yUser, by decide, rfl⟩))).1

/-- C10: on every successful getStatus call the cancelAtPeriodEnd and
willCancelAtPeriodEnd fields of the response are the freshly fetched
provider value, for every content of the locally cached blob; by contrast
currentPeriodEnd and interval are taken from the local blob whenever it
has them, and the status prefers the local value when it is active (and
the period end has not passed). -/
theorem c10_cancel_flags_from_provider (e : Env) (st : Store) (uid : Nat)
    (u : UserRec) (l : LocalSub) (sid : String) (s : StripeSub)
    (hconf : e.stripeConfigured = true)
    (hu : findUserById st uid = some u) (hl : u.subscription = some l)
    (hid : l.id = some sid) (hne : sid ≠ "")
    (hs : e.providerSubs sid = some s) :
    outcomeCancelFlag (getSubscriptionStatus e (some uid) st) =
      some s.cancel_at_period_end ∧
    outcomeWillCancel (getSubscriptionStatus e (some uid) st) =
      some s.cancel_at_period_end ∧
    (∀ ms, l.currentPeriodEnd = some ms →
      outcomeCpe (getSubscriptionStatus e (some uid) st) =
        some (some (Int.ediv ms 1000))) ∧
    (∀ iv, l.interval = some iv →
      outcomePlan (getSubscriptionStatus e (some uid) st) = some iv) ∧
    (l.status = some SubStatus.active →
      (cpeTruthy s.current_period_end = true →
        e.now ≤ (s.current_period_end.getD 0) * 1000) →
      outcomeStatus (getSubscriptionStatus e (some uid) st) =
        some SubStatus.active) := by
  rw [getStatus_ok e st uid u l sid s hconf hu hl hid hne hs]
  refine ⟨rfl, rfl, ?_, ?_, ?_⟩
  · intro ms hms
    simp [outcomeCpe, hms]
  · intro iv hiv
    simp [outcomePlan, hiv]
  · intro hstat hnp
    rw [mergeStatus_not_past l s e.now hnp]
    simp [outcomeStatus, hstat]

/-- C10 witness: the local blob caches cancelAtPeriodEnd true while the
provider reports false, and the response carries false in both cancel
fields; the cached period end and interval are the reported ones. -/
theorem c10_witness :
    outcomeCancelFlag (getSubscriptionStatus xEnvFuture (some 1) xStore) = some false ∧
    outcomeCpe (getSubscriptionStatus xEnvFuture (some 1) xStore) = some (some 9000) ∧
    outcomePlan (getSubscriptionStatus xEnvFuture (some 1) xStore) =
      some PlanInterval.month := by
  have h := c10_cancel_flags_from_provider xEnvFuture xStore 1 xUser xLocal "sub1"
    xSubFuture rfl (by decide) rfl rfl (by decide) rfl
  exact ⟨h.1, h.2.2.1 9000000 rfl, h.2.2.2.1 PlanInterval.month rfl⟩

/-- C8: a webhook delivery whose signature fails verification is answered
with the 400 client error and the store is returned unchanged: no
subscription or invoice row is touched. -/
theorem c8_bad_signature_rejected (e : Env) (ev : StripeEvent) (st : Store)
    (hconf : e.stripeConfigured = true) :
    handleWebhook e false ev st =
      Except.ok ({ statusCode := 400, acknowledged := false }, st) := by
  simp [handleWebhook, hconf]

/-- Environment for the thrown-handler scenario: the provider lookup fails
for every id. -/
def zEnv : Env :=
  { stripeConfigured := true, now := 0,
    providerSubs := fun _ => none, freshInvoiceId := "INV-Z" }

/-- C8 witness: an unverified delivery of some event over the empty store
yields exactly the 400 response and the untouched store. -/
theorem c8_witness :
    handleWebhook zEnv false (StripeEvent.unrecognized "x") emptyStore =
      Except.ok ({ statusCode := 400, acknowledged := false }, emptyStore) :=
  c8_bad_signature_rejected zEnv (StripeEvent.unrecognized "x") emptyStore rfl

/-- C9 amended: every verified delivery whose handler runs to completion
is answered 200 with the acknowledgment body, and a verified event of
unrecognized type always completes, leaves the store unchanged, and is
acknowledged; however, when a handler throws (a failing provider lookup),
the request aborts without the acknowledgment, so the 200 is not
unconditional (see the counterexample). -/
theorem c9_verified_ack (e : Env) (st : Store) (hconf : e.stripeConfigured = true) :
    (∀ tag, handleWebhook e true (StripeEvent.unrecognized tag) st =
      Except.ok ({ statusCode := 200, acknowledged := true }, st)) ∧
    (∀ ev r st', handleWebhook e true ev st = Except.ok (r, st') →
      r.statusCode = 200 ∧ r.acknowledged = true) := by
  constructor
  · intro tag
    simp [handleWebhook, hconf, dispatchEvent]
  · intro ev r st' h
    simp only [handleWebhook, hconf] at h
    simp only [Bool.true_eq_false, if_false] at h
    split at h
    · exact absurd h (by simp)
    · simp only [Except.ok.injEq, Prod.mk.injEq] at h
      obtain ⟨h1, -⟩ := h
      rw [← h1]
      exact ⟨rfl, rfl⟩

/-- The charge of the thrown-handler scenario: linked by metadata to a
subscription the provider lookup cannot retrieve. -/
def zCharge : ChargeData :=
  { id := "ch1", metadata_subscription_id := some "subZ",
    amount := 100, currency := "usd", invoice := none }

/-- C9 counterexample: a verified charge.succeeded delivery whose provider
lookup throws produces no 200 acknowledgment at all, refuting that every
verified request is answered 200 regardless of the internal handler
outcome. -/
theorem c9_counterexample :
    responds200 (handleWebhook zEnv true (StripeEvent.charge_succeeded zCharge)
      emptyStore) = false := by
  decide

/-- C9 witness: a verified delivery of an unrecognized event type over the
empty store is acknowledged with 200 and the store is unchanged. -/
theorem c9_witness :
    handleWebhook zEnv true (StripeEvent.unrecognized "some.event") emptyStore =
      Except.ok ({ statusCode := 200, acknowledged := true }, emptyStore) :=
  (c9_verified_ack zEnv emptyStore rfl).1 "some.event"

/-- The integer ceiling division agrees with the rational ceiling of the
exact quotient for a natural divisor. -/
theorem ceilDiv_eq_ceil (a : Int) (d : ℕ) :
    ceilDiv a (d : Int) = Int.ceil ((a : ℚ) / (d : ℚ)) := by
  unfold ceilDiv
  have h1 : Int.ediv (-a) (d : Int) = (-a) / (d : Int) := rfl
  rw [h1, ← Rat.floor_intCast_div_natCast (-a) d, ← Int.ceil_neg]
  congr 1
  push_cast
  ring

/-- Spec-side countdown: remaining days as the ceiling of the exact
rational difference measured in days, clamped to be nonnegative. -/
def remainingDaysSpec (nowMs expiryMs : Int) : Int :=
  max 0 (Int.ceil (((expiryMs - nowMs : Int) : ℚ) / (86400000 : ℚ)))

/-- A provider record for the countdown fixtures, parameterized by its
period end in epoch seconds. -/
def dSub (cpe : Int) : StripeSub :=
  { id := "sub1", status := SubStatus.active, customer := "cus1",
    current_period_end := some cpe, cancel_at_period_end := false,
    interval := some PlanInterval.month, priceId := none }

/-- An environment with the clock at epoch and the provider returning the
countdown fixture record. -/
def dEnv (cpe : Int) : Env :=
  { stripeConfigured := true, now := 0,
    providerSubs := fun sid => if sid = "sub1" then some (dSub cpe) else none,
    freshInvoiceId := "INV-D" }

/-- C5: the countdown view computes remainingDays as the clamped ceiling
of the day difference and never reports a negative value; the four tiers
are good above 7 days, warning for 4 to 7, critical for 1 to 3 and
expired at or below 0; through the details endpoint, a period end 8 days
ahead yields good, 5 days ahead warning, 2 days ahead critical, and one
day past yields expired with remainingDays 0. -/
theorem c5_countdown :
    (∀ nowMs expiryMs : Int,
      remainingDaysOf nowMs expiryMs = remainingDaysSpec nowMs expiryMs) ∧
    (∀ nowMs expiryMs : Int, 0 ≤ remainingDaysOf nowMs expiryMs) ∧
    (∀ rd : Int,
      (validityStatusOf rd = VStatus.good ↔ 7 < rd) ∧
      (validityStatusOf rd = VStatus.warning ↔ 4 ≤ rd ∧ rd ≤ 7) ∧
      (validityStatusOf rd = VStatus.critical ↔ 1 ≤ rd ∧ rd ≤ 3) ∧
      (validityStatusOf rd = VStatus.expired ↔ rd ≤ 0)) ∧
    detailsValidity (getSubscriptionDetails (dEnv 691200) (some 1) xStore) =
      some VStatus.good ∧
    detailsValidity (getSubscriptionDetails (dEnv 432000) (some 1) xStore) =
      some VStatus.warning ∧
    detailsValidity (getSubscriptionDetails (dEnv 172800) (some 1) xStore) =
      some VStatus.critical ∧
    detailsValidity (getSubscriptionDetails (dEnv (-86400)) (some 1) xStore) =
      some VStatus.expired ∧
    detailsRemaining (getSubscriptionDetails (dEnv (-86400)) (some 1) xStore) =
      some 0 := by
  refine ⟨?_, ?_, ?_, by decide, by decide, by decide, by decide, by decide⟩
  · intro nowMs expiryMs
    unfold remainingDaysOf remainingDaysSpec dayMs
    congr 1
    have h := ceilDiv_eq_ceil (expiryMs - nowMs) 86400000
    norm_num at h
    rw [h]
    congr 1
    push_cast
    ring
  · intro nowMs expiryMs
    unfold remainingDaysOf
    exact le_max_left 0 _
  · intro rd
    unfold validityStatusOf
    split_ifs with h1 h2 h3 <;>
      refine ⟨?_, ?_, ?_, ?_⟩ <;> constructor <;> intro hx <;>
      first
        | omega
        | (exfalso; revert hx; decide)
        | rfl

/-- When the dispatched handler completes with a new store, the delivery
answers 200 and that store is the resulting one. -/
theorem webhook_of_dispatch_ok (e : Env) (ev : StripeEvent) (st st' : Store)
    (hconf : e.stripeConfigured = true)
    (hd : dispatchEvent e ev st = Except.ok st') :
    webhookStore e true ev st = st' ∧ webhookCode e true ev st = some 200 := by
  unfold webhookStore webhookCode handleWebhook
  rw [hconf, hd]
  simp

/-- Invoice creation leaves the user lookup unchanged. -/
theorem findUserByCustomer_generateInvoice (e : Env) (d : PaymentData) (u : UserRec)
    (st : Store) (c : String) :
    findUserByCustomer (generateInvoice e d u st) c = findUserByCustomer st c := rfl

/-- C6: a verified charge.succeeded event linked to a subscription whose
provider-reported status is incomplete sets the local subscription status
to active and creates exactly one invoice row. -/
theorem c6_charge_incomplete_activates (e : Env) (st : Store) (c : ChargeData)
    (sid : String) (s : StripeSub) (u : UserRec)
    (hconf : e.stripeConfigured = true)
    (hsid : c.metadata_subscription_id = some sid)
    (hs : e.providerSubs sid = some s)
    (hstat : s.status = SubStatus.incomplete)
    (hu : findUserByCustomer st s.customer = some u) :
    webhookCode e true (StripeEvent.charge_succeeded c) st = some 200 ∧
    localStatusByCustomer (webhookStore e true (StripeEvent.charge_succeeded c) st)
      s.customer = some SubStatus.active ∧
    (webhookStore e true (StripeEvent.charge_succeeded c) st).invoices.length =
      st.invoices.length + 1 := by
  have hd : dispatchEvent e (StripeEvent.charge_succeeded c) st =
      Except.ok (handleSuccessfulPayment e
        { id := sid, subscriptionId := sid, amount := (c.amount : ℚ) / 100
          currency := c.currency, stripeInvoiceId := c.invoice.getD c.id }
        (paidUpdateUser e SubStatus.active
          (periodEndOrFallback e s.current_period_end (s.interval.getD PlanInterval.month))
          (s.interval.getD PlanInterval.month) u)
        (saveUser st (paidUpdateUser e SubStatus.active
          (periodEndOrFallback e s.current_period_end (s.interval.getD PlanInterval.month))
          (s.interval.getD PlanInterval.month) u))) := by
    simp [dispatchEvent, hsid, hs, hu, hstat]
  obtain ⟨hstore, hcode⟩ :=
    webhook_of_dispatch_ok e (StripeEvent.charge_succeeded c) st _ hconf hd
  refine ⟨hcode, ?_, ?_⟩
  · rw [hstore]
    unfold localStatusByCustomer
    rw [show (handleSuccessfulPayment e
        { id := sid, subscriptionId := sid, amount := (c.amount : ℚ) / 100
          currency := c.currency, stripeInvoiceId := c.invoice.getD c.id } :
          UserRec → Store → Store) = generateInvoice e _ from rfl]
    rw [findUserByCustomer_generateInvoice]
    rw [findUserByCustomer_saveUser st s.customer u
      (paidUpdateUser e SubStatus.active
        (periodEndOrFallback e s.current_period_end (s.interval.getD PlanInterval.month))
        (s.interval.getD PlanInterval.month) u) hu rfl rfl]
    simp [paidUpdateUser]
  · rw [hstore]
    simp [handleSuccessfulPayment, generateInvoice, saveUser]

/-- Provider record for the C6 witness: an incomplete subscription of the
primary witness customer. -/
def c6Sub : StripeSub :=
  { id := "sub1", status := SubStatus.incomplete, customer := "cus1",
    current_period_end := some 7000, cancel_at_period_end := false,
    interval := some PlanInterval.month, priceId := none }

/-- Environment for the C6 witness. -/
def c6Env : Env :=
  { stripeConfigured := true, now := 100,
    providerSubs := fun sid => if sid = "sub1" then some c6Sub else none,
    freshInvoiceId := "INV-C6" }

/-- Charge of the C6 witness, linked to the incomplete subscription by
metadata. -/
def c6Charge : ChargeData :=
  { id := "ch6", metadata_subscription_id := some "sub1",
    amount := 999, currency := "usd", invoice := some "in6" }

/-- C6 witness: the concrete charge over the concrete store is answered
200, flips the local status to active and appends exactly one invoice
row. -/
theorem c6_witness :
    webhookCode c6Env true (StripeEvent.charge_succeeded c6Charge) xStore = some 200 ∧
    localStatusByCustomer
      (webhookStore c6Env true (StripeEvent.charge_succeeded c6Charge) xStore) "cus1" =
      some SubStatus.active ∧
    (webhookStore c6Env true (StripeEvent.charge_succeeded c6Charge) xStore).invoices.length =
      xStore.invoices.length + 1 :=
  c6_charge_incomplete_activates c6Env xStore c6Charge "sub1" c6Sub xUser rfl rfl rfl rfl
    (by decide)

/-- C1 amended: delivering the same verified invoice.payment_succeeded
event twice creates one invoice row per delivery, two in total (there is
no deduplication by provider payment reference), while the local
currentPeriodEnd after the second delivery equals its value after the
first, both being the invoice period end. -/
theorem c1_replay_two_invoices (e1 e2 : Env) (st : Store) (i : InvoiceEventData)
    (u : UserRec)
    (hc1 : e1.stripeConfigured = true) (hc2 : e2.stripeConfigured = true)
    (hu : findUserByCustomer st i.customer = some u) :
    webhookCode e1 true (StripeEvent.invoice_payment_succeeded i) st = some 200 ∧
    webhookCode e2 true (StripeEvent.invoice_payment_succeeded i)
      (webhookStore e1 true (StripeEvent.invoice_payment_succeeded i) st) = some 200 ∧
    (webhookStore e2 true (StripeEvent.invoice_payment_succeeded i)
        (webhookStore e1 true (StripeEvent.invoice_payment_succeeded i) st)).invoices.length =
      st.invoices.length + 2 ∧
    localCpeByCustomer
        (webhookStore e2 true (StripeEvent.invoice_payment_succeeded i)
          (webhookStore e1 true (StripeEvent.invoice_payment_succeeded i) st)) i.customer =
      localCpeByCustomer
        (webhookStore e1 true (StripeEvent.invoice_payment_succeeded i) st) i.customer ∧
    localCpeByCustomer
        (webhookStore e1 true (StripeEvent.invoice_payment_succeeded i) st) i.customer =
      some (i.period_end * 1000) := by
  have hd1 : dispatchEvent e1 (StripeEvent.invoice_payment_succeeded i) st =
      Except.ok (handleSuccessfulPayment e1
        { id := i.subscription, subscriptionId := i.subscription
          amount := (i.amount_paid : ℚ) / 100
          currency := i.currency, stripeInvoiceId := i.id }
        (invoicePaidUser e1 i u) (saveUser st (invoicePaidUser e1 i u))) := by
    simp [dispatchEvent, hu]
  obtain ⟨hstore1, hcode1⟩ :=
    webhook_of_dispatch_ok e1 (StripeEvent.invoice_payment_succeeded i) st _ hc1 hd1
  have hu1 : findUserByCustomer
      (webhookStore e1 true (StripeEvent.invoice_payment_succeeded i) st) i.customer =
      some (invoicePaidUser e1 i u) := by
    rw [hstore1]
    rw [show (handleSuccessfulPayment e1
        { id := i.subscription, subscriptionId := i.subscription
          amount := (i.amount_paid : ℚ) / 100
          currency := i.currency, stripeInvoiceId := i.id } :
          UserRec → Store → Store) = generateInvoice e1 _ from rfl]
    rw [findUserByCustomer_generateInvoice]
    exact findUserByCustomer_saveUser st i.customer u (invoicePaidUser e1 i u) hu rfl rfl
  have hd2 : dispatchEvent e2 (StripeEvent.invoice_payment_succeeded i)
      (webhookStore e1 true (StripeEvent.invoice_payment_succeeded i) st) =
      Except.ok (handleSuccessfulPayment e2
        { id := i.subscription, subscriptionId := i.subscription
          amount := (i.amount_paid : ℚ) / 100
          currency := i.currency, stripeInvoiceId := i.id }
        (invoicePaidUser e2 i (invoicePaidUser e1 i u))
        (saveUser (webhookStore e1 true (StripeEvent.invoice_payment_succeeded i) st)
          (invoicePaidUser e2 i (invoicePaidUser e1 i u)))) := by
    simp [dispatchEvent, hu1]
  obtain ⟨hstore2, hcode2⟩ :=
    webhook_of_dispatch_ok e2 (StripeEvent.invoice_payment_succeeded i) _ _ hc2 hd2
  have hu2 : findUserByCustomer
      (webhookStore e2 true (StripeEvent.invoice_payment_succeeded i)
        (webhookStore e1 true (StripeEvent.invoice_payment_succeeded i) st)) i.customer =
      some (invoicePaidUser e2 i (invoicePaidUser e1 i u)) := by
    rw [hstore2]
    rw [show (handleSuccessfulPayment e2
        { id := i.subscription, subscriptionId := i.subscription
          amount := (i.amount_paid : ℚ) / 100
          currency := i.currency, stripeInvoiceId := i.id } :
          UserRec → Store → Store) = generateInvoice e2 _ from rfl]
    rw [findUserByCustomer_generateInvoice]
    exact findUserByCustomer_saveUser _ i.customer (invoicePaidUser e1 i u)
      (invoicePaidUser e2 i (invoicePaidUser e1 i u)) hu1 rfl rfl
  refine ⟨hcode1, hcode2, ?_, ?_, ?_⟩
  · rw [hstore2, hstore1]
    simp [handleSuccessfulPayment, generateInvoice, saveUser]
  · unfold localCpeByCustomer
    rw [hu1, hu2]
    simp [invoicePaidUser]
  · unfold localCpeByCustomer
    rw [hu1]
    simp [invoicePaidUser]

/-- The replayed invoice.payment_succeeded event of the C1 scenario. -/
def c1Inv : InvoiceEventData :=
  { id := "in1", customer := "cus1", subscription := "sub1",
    period_end := 5000, amount_paid := 1000, currency := "usd" }

/-- Environment of the first C1 delivery. -/
def c1EnvA : Env :=
  { stripeConfigured := true, now := 50,
    providerSubs := fun _ => none, freshInvoiceId := "INV-1A" }

/-- Environment of the second C1 delivery (only the fresh invoice
identifier differs). -/
def c1EnvB : Env := { c1EnvA with freshInvoiceId := "INV-1B" }

/-- Store after the first delivery of the C1 event. -/
def c1St1 : Store :=
  webhookStore c1EnvA true (StripeEvent.invoice_payment_succeeded c1Inv) xStore

/-- Store after the second delivery of the same C1 event. -/
def c1St2 : Store :=
  webhookStore c1EnvB true (StripeEvent.invoice_payment_succeeded c1Inv) c1St1

/-- C1 counterexample: after delivering the same verified
invoice.payment_succeeded event twice the store holds two invoice rows,
not exactly one. -/
theorem c1_counterexample :
    c1St2.invoices.length = 2 ∧ ¬ c1St2.invoices.length = 1 := by
  decide

/-- C1 witness: both deliveries of the concrete event are acknowledged,
the invoice count grows by two, and the cached period end after the second
delivery equals the one after the first. -/
theorem c1_witness :
    webhookCode c1EnvA true (StripeEvent.invoice_payment_succeeded c1Inv) xStore =
      some 200 ∧
    (webhookStore c1EnvB true (StripeEvent.invoice_payment_succeeded c1Inv)
        (webhookStore c1EnvA true (StripeEvent.invoice_payment_succeeded c1Inv)
          xStore)).invoices.length = xStore.invoices.length + 2 ∧
    localCpeByCustomer
        (webhookStore c1EnvB true (StripeEvent.invoice_payment_succeeded c1Inv)
          (webhookStore c1EnvA true (StripeEvent.invoice_payment_succeeded c1Inv)
            xStore)) "cus1" =
      localCpeByCustomer
        (webhookStore c1EnvA true (StripeEvent.invoice_payment_succeeded c1Inv)
          xStore) "cus1" := by
  have h := c1_replay_two_invoices c1EnvA c1EnvB xStore c1Inv xUser rfl rfl (by decide)
  exact ⟨h.1, h.2.2.1, h.2.2.2.1⟩

/-- C7 amended: each force-activate call writes the forced blob (status
active, cancellation flag cleared); the blob written by the second call
differs from the first only in paymentDate and, when the provider supplies
no truthy period end, currentPeriodEnd, both recomputed at the second
call time; two calls sharing one clock reading produce identical blobs. -/
theorem c7_force_activate (e1 e2 : Env) (st : Store) (uid : Nat) (u : UserRec)
    (l : LocalSub) (sid : String) (s : StripeSub)
    (hc1 : e1.stripeConfigured = true) (hc2 : e2.stripeConfigured = true)
    (hu : findUserById st uid = some u) (hl : u.subscription = some l)
    (hid : l.id = some sid) (hne : sid ≠ "")
    (hs1 : e1.providerSubs sid = some s) (hs2 : e2.providerSubs sid = some s) :
    localSubOfUser (forceActivateSubscription e1 (some uid) st).2 uid =
      some (forceLocal e1 s l) ∧
    localSubOfUser (forceActivateSubscription e2 (some uid)
        (forceActivateSubscription e1 (some uid) st).2).2 uid =
      some (forceLocal e2 s (forceLocal e1 s l)) ∧
    (forceLocal e1 s l).status = some SubStatus.active ∧
    (forceLocal e1 s l).cancelAtPeriodEnd = some false ∧
    (forceLocal e2 s (forceLocal e1 s l)).status = some SubStatus.active ∧
    (forceLocal e2 s (forceLocal e1 s l)).cancelAtPeriodEnd = some false ∧
    (forceLocal e2 s (forceLocal e1 s l)).id = (forceLocal e1 s l).id ∧
    (forceLocal e2 s (forceLocal e1 s l)).interval = (forceLocal e1 s l).interval ∧
    (forceLocal e2 s (forceLocal e1 s l)).paymentDate = some e2.now ∧
    (cpeTruthy s.current_period_end = true →
      (forceLocal e2 s (forceLocal e1 s l)).currentPeriodEnd =
        (forceLocal e1 s l).currentPeriodEnd) ∧
    (e1.now = e2.now → forceLocal e2 s (forceLocal e1 s l) = forceLocal e1 s l) := by
  have hf1 : forceActivateSubscription e1 (some uid) st =
      (ForceOutcome.ok s.id s.status,
        saveUser st { u with subscription := some (forceLocal e1 s l) }) := by
    simp [forceActivateSubscription, hc1, hu, hl, hid, hne, hs1]
  have hfind1 : findUserById (saveUser st { u with subscription := some (forceLocal e1 s l) })
      uid = some { u with subscription := some (forceLocal e1 s l) } :=
    findUserById_saveUser st uid u _ hu rfl
  have hf2 : forceActivateSubscription e2 (some uid)
      (saveUser st { u with subscription := some (forceLocal e1 s l) }) =
      (ForceOutcome.ok s.id s.status,
        saveUser (saveUser st { u with subscription := some (forceLocal e1 s l) })
          { u with subscription := some (forceLocal e2 s (forceLocal e1 s l)) }) := by
    have hid2 : (forceLocal e1 s l).id = some sid := hid
    simp [forceActivateSubscription, hc2, hfind1, hid2, hne, hs2]
  have hfind2 : findUserById
      (saveUser (saveUser st { u with subscription := some (forceLocal e1 s l) })
        { u with subscription := some (forceLocal e2 s (forceLocal e1 s l)) }) uid =
      some { u with subscription := some (forceLocal e2 s (forceLocal e1 s l)) } :=
    findUserById_saveUser _ uid { u with subscription := some (forceLocal e1 s l) }
      { u with subscription := some (forceLocal e2 s (forceLocal e1 s l)) } hfind1 rfl
  refine ⟨?_, ?_, rfl, rfl, rfl, rfl, rfl, ?_, rfl, ?_, ?_⟩
  · unfold localSubOfUser
    rw [hf1, hfind1]
  · unfold localSubOfUser
    rw [hf1, hf2, hfind2]
  · simp [forceLocal]
  · intro htr
    simp [forceLocal, periodEndOrFallback, htr]
  · intro hnow
    simp [forceLocal, periodEndOrFallback, hnow]

/-- Environment of the first force-activate call, clock at 1000 ms. -/
def fEnvA : Env :=
  { stripeConfigured := true, now := 1000,
    providerSubs := fun sid => if sid = "sub1" then some xSubFuture else none,
    freshInvoiceId := "INV-FA" }

/-- Environment of the second force-activate call, clock at 2000 ms. -/
def fEnvB : Env := { fEnvA with now := 2000 }

/-- Store after the first force-activate call. -/
def fSt1 : Store := (forceActivateSubscription fEnvA (some 1) xStore).2

/-- Store after the second force-activate call. -/
def fSt2 : Store := (forceActivateSubscription fEnvB (some 1) fSt1).2

/-- C7 counterexample: invoking force-activate twice in a row, the second
call one second after the first, leaves a local subscription state that
differs from the state after the first call (the stamped paymentDate
moved), refuting that the two states are identical. -/
theorem c7_counterexample :
    localSubOfUser fSt2 1 ≠ localSubOfUser fSt1 1 ∧
    (localSubOfUser fSt2 1).bind LocalSub.paymentDate = some 2000 ∧
    (localSubOfUser fSt1 1).bind LocalSub.paymentDate = some 1000 := by
  decide

/-- C7 witness: two concrete force-activate calls sharing the same clock
reading; each writes status active with the cancellation flag cleared and
the second state is identical to the first. -/
theorem c7_witness :
    localSubOfUser (forceActivateSubscription fEnvA (some 1)
        (forceActivateSubscription fEnvA (some 1) xStore).2).2 1 =
      localSubOfUser (forceActivateSubscription fEnvA (some 1) xStore).2 1 ∧
    localSubOfUser (forceActivateSubscription fEnvA (some 1) xStore).2 1 =
      some (forceLocal fEnvA xSubFuture xLocal) ∧
    (forceLocal fEnvA xSubFuture xLocal).status = some SubStatus.active ∧
    (forceLocal fEnvA xSubFuture xLocal).cancelAtPeriodEnd = some false := by
  have h := c7_force_activate fEnvA fEnvA xStore 1 xUser xLocal "sub1" xSubFuture
    rfl rfl (by decide) rfl rfl (by decide) rfl rfl
  obtain ⟨ha, hb, hst, hcf, -, -, -, -, -, -, hsame⟩ := h
  exact ⟨by rw [hb, hsame rfl, ha], ha, hst, hcf⟩
